import Mathlib

/-
Verification development for the Python-RAG-Service repository
(src/Python-RAG-Service/main.py).

The definitions below are a shallow embedding of main.py into Lean:
pure text processing becomes Lean functions over `String` / `List Char`,
the effects of the external services (vector retrieval, the two model
calls, the file system) are passed in explicitly as environment records,
and Python exceptions are modelled as `Except` values.  Python string
semantics (str.strip, str.lower, str.replace, str.split, str.count,
substring membership, the specific regular expressions used by main.py)
are implemented by the py* / match* helpers with the same observable
behaviour on the inputs that occur here.
-/

set_option maxRecDepth 100000
set_option maxHeartbeats 2000000

deriving instance DecidableEq for Except

namespace RagService

/-! ## Python string primitives -/

/-- ASCII whitespace, as matched by Python `str.strip` and the regex
class used in main.py. -/
def isPySpace (c : Char) : Bool :=
  c = ' ' || c = '\t' || c = '\n' || c = '\r' || c = '\x0b' || c = '\x0c'

/-- Python `len(s)`: number of code points. -/
def pyLen (s : String) : Nat := s.data.length

/-- Python `s.strip()` (whitespace from both ends). -/
def pyStrip (s : String) : String :=
  String.mk (((s.data.dropWhile isPySpace).reverse.dropWhile isPySpace).reverse)

/-- Python `s.lower()` (ASCII case folding suffices for every string in
main.py). -/
def pyLower (s : String) : String := String.mk (s.data.map Char.toLower)

/-- Scan for `p in s`: the pattern is a prefix of some suffix. -/
def containsSubAux (pat : List Char) : List Char → Bool
  | [] => pat.isPrefixOf []
  | c :: rest => pat.isPrefixOf (c :: rest) || containsSubAux pat rest

/-- Python `p in s` (substring membership). -/
def containsSub (s pat : String) : Bool := containsSubAux pat.data s.data

/-- Python `s.startswith(p)`. -/
def pyStartsWith (s p : String) : Bool := p.data.isPrefixOf s.data

/-- Python `s.startswith(tuple)`: any of the given literal prefixes. -/
def startsWithAny (s : String) (ps : List String) : Bool :=
  ps.any (fun p => pyStartsWith s p)

/-- Python `s.isdigit()` for ASCII strings: non-empty and all digits. -/
def pyIsDigit (s : String) : Bool := s.data.length > 0 && s.data.all Char.isDigit

/-- Counting loop behind Python `s.count(pat)`: non-overlapping
occurrences, scanning left to right.  The fuel argument is the length of
the scanned list, which is always enough because every step consumes at
least one character. -/
def strCountAux (pat : List Char) : Nat → List Char → Nat
  | 0, _ => 0
  | _, [] => 0
  | fuel+1, c :: rest =>
    if pat.isPrefixOf (c :: rest) then
      1 + strCountAux pat fuel (List.drop (pat.length - 1) rest)
    else
      strCountAux pat fuel rest

/-- Python `s.count(pat)` for non-empty `pat`. -/
def strCount (s pat : String) : Nat := strCountAux pat.data s.data.length s.data

/-- Generic replacement engine: at each position, if the matcher
recognises a (non-empty) match of length `L`, emit the replacement and
resume after the match, otherwise keep one character.  This is the
scanning discipline of Python `re.sub` and `str.replace`. -/
def reSubAux (m : List Char → Option Nat) (repl : List Char) : Nat → List Char → List Char
  | 0, cs => cs
  | _, [] => []
  | fuel+1, c :: rest =>
    match m (c :: rest) with
    | some L => repl ++ reSubAux m repl fuel (List.drop (L - 1) rest)
    | none => c :: reSubAux m repl fuel rest

/-- Run the replacement engine over a string. -/
def reSub (m : List Char → Option Nat) (repl : String) (s : String) : String :=
  String.mk (reSubAux m repl.data s.data.length s.data)

/-- Python `s.replace(pat, repl)` for non-empty `pat`. -/
def replaceAll (s pat repl : String) : String :=
  reSub (fun cs => if pat.data.isPrefixOf cs then some pat.data.length else none)
    repl s

/-- Splitting loop behind Python `s.split(sep)` for non-empty `sep`. -/
def pySplitAux (sep : List Char) : Nat → List Char → List Char → List (List Char)
  | 0, cur, cs => [cur.reverse ++ cs]
  | _, cur, [] => [cur.reverse]
  | fuel+1, cur, c :: rest =>
    if sep.isPrefixOf (c :: rest) then
      cur.reverse :: pySplitAux sep fuel [] (List.drop (sep.length - 1) rest)
    else
      pySplitAux sep fuel (c :: cur) rest

/-- Python `s.split(sep)` for non-empty `sep`. -/
def pySplit (s sep : String) : List String :=
  (pySplitAux sep.data (s.data.length + 1) [] s.data).map String.mk

/-- Order-preserving de-duplication, as Python
`list(dict.fromkeys(xs))`. -/
def dedupFirstAux (seen : List String) : List String → List String
  | [] => []
  | x :: xs =>
    if seen.contains x then dedupFirstAux seen xs
    else x :: dedupFirstAux (x :: seen) xs

/-- Python `list(dict.fromkeys(xs))`. -/
def dedupFirst (xs : List String) : List String := dedupFirstAux [] xs

/-! ## Exceptions -/

/-- Python exceptions, as distinguished by the two `except` clauses of
`IndexManager.query` (main.py lines 301-309): `ollama ResponseError`
versus every other `Exception`. -/
inductive PyExc where
  | responseError (msg : String)
  | otherExc (msg : String)
deriving DecidableEq

/-! ## Query classifier (main.py lines 194-211) -/

/-- The fixed greeting set of main.py line 197. -/
def greetings : List String :=
  ["hi", "hii", "hey", "hello", "hello there", "hi there", "hey there",
   "howdy", "good morning", "good afternoon", "good evening"]

/-- Line 198: `q.lower().replace("!", "").replace("?", "")`. -/
def normalizeGreeting (q : String) : String :=
  replaceAll (replaceAll (pyLower q) "!" "") "?" ""

/-- Line 199: `q_lower_clean in greetings or (len(q) < 5 and
q_lower_clean in greetings)` (the second disjunct is redundant in the
source and is kept verbatim). -/
def isGreeting (q : String) : Bool :=
  greetings.contains (normalizeGreeting q) ||
    (pyLen q < 5 && greetings.contains (normalizeGreeting q))

/-- The fixed domain keyword set of main.py lines 207-209. -/
def orderKeywords : List String :=
  ["order", "menu", "item", "dish", "food", "curry", "biryani", "naan",
   "papadum", "forecast", "demand", "sale", "popular", "best-seller",
   "price", "cost", "week", "predict", "trend", "top items",
   "availability", "served"]

/-- Line 211: `any(keyword in q_lower for keyword in order_keywords)`. -/
def isOrderRelated (q : String) : Bool :=
  orderKeywords.any (fun k => containsSub (pyLower q) k)

/-! ## Retrieval gate (main.py lines 213-221) -/

/-- A node returned by `retriever.retrieve(q)`: only its similarity
score matters to the gate.  `none` models `node.score` being `None`. -/
structure RetrievedNode where
  score : Option ℚ
deriving DecidableEq

/-- Line 220: `float(node.score or 0)`. -/
def scoreOrZero (n : RetrievedNode) : ℚ := n.score.getD 0

/-- The similarity threshold 0.15 of line 220, as the rational 3/20. -/
def simThreshold : ℚ := mkRat 3 20

/-- Lines 218-221: `not retrieved_nodes or all(float(node.score or 0) <
0.15 for node in retrieved_nodes)`. -/
def noContext (nodes : List RetrievedNode) : Bool :=
  nodes.isEmpty || nodes.all (fun n => scoreOrZero n < simThreshold)

/-! ## Canned answers -/

/-- Line 200. -/
def greetingReply : String :=
  "Hello! Welcome User. How can I help you today? Feel free to ask about our menu items, recommendations, or anything else!"

/-- Line 204. -/
def tooShortReply : String :=
  "Could you please ask me something more specific?"

/-- Line 226 (an f-string with no interpolations, hence a fixed text). -/
def noDataMessage : String :=
  "I don\x27t have information about that in our system. Our menu and order data might not include what you\x27re looking for, or it could be temporarily unavailable. Please ask our staff directly for more details!"

/-- Lines 301-309: the two `except` blocks, each converting the
exception into a user-facing text answer. -/
def excAnswer : PyExc → String
  | .responseError m =>
    "[Ollama Error] The model stopped or ran out of resources. Try restarting Ollama or freeing memory.\nDetails: " ++ m
  | .otherExc m => "[Unexpected Error During Query] " ++ m

/-! ## Raw-data contamination scan (main.py lines 281-282)

The regex is `\d{4}-\d{2}-\d{2}|Main\s*-\s*(?:Curry|Biryani)|^\d+\.\d+`
and `has_raw_data` holds when `re.findall` produces more than two
matches.  `re.findall` scans left to right, tries the alternatives in
order at each position, and resumes after each (non-overlapping) match;
without the MULTILINE flag, `^` only matches at the very start of the
string. -/

/-- Word character for `\w` and `\b` (ASCII). -/
def isWordChar (c : Char) : Bool := c.isAlphanum || c = '_'

/-- Match `\d{4}-\d{2}-\d{2}` at the current position. -/
def matchDateAt : List Char → Option Nat
  | a :: b :: c :: d :: '-' :: e :: f :: '-' :: g :: h :: _ =>
    if [a, b, c, d, e, f, g, h].all Char.isDigit then some 10 else none
  | _ => none

/-- Match `Main\s*-\s*(?:Curry|Biryani)` at the current position. -/
def matchMainDishAt (cs : List Char) : Option Nat :=
  if ("Main".data).isPrefixOf cs then
    let r1 := cs.drop 4
    let sp1 := (r1.takeWhile isPySpace).length
    match r1.drop sp1 with
    | '-' :: r3 =>
      let sp2 := (r3.takeWhile isPySpace).length
      let r4 := r3.drop sp2
      if ("Curry".data).isPrefixOf r4 then some (4 + sp1 + 1 + sp2 + 5)
      else if ("Biryani".data).isPrefixOf r4 then some (4 + sp1 + 1 + sp2 + 7)
      else none
    | _ => none
  else none

/-- Match `\d+\.\d+` (used only when anchored at the string start). -/
def matchNumDotNumAt (cs : List Char) : Option Nat :=
  let ds1 := cs.takeWhile Char.isDigit
  if ds1.isEmpty then none
  else
    match cs.drop ds1.length with
    | '.' :: r2 =>
      let ds2 := r2.takeWhile Char.isDigit
      if ds2.isEmpty then none else some (ds1.length + 1 + ds2.length)
    | _ => none

/-- The `re.findall` loop for the raw-data pattern: count the
non-overlapping matches. -/
def rawScanAux : Nat → Bool → List Char → Nat
  | 0, _, _ => 0
  | _, _, [] => 0
  | fuel+1, atStart, c :: rest =>
    match matchDateAt (c :: rest) with
    | some L => 1 + rawScanAux fuel false (List.drop (L - 1) rest)
    | none =>
      match matchMainDishAt (c :: rest) with
      | some L => 1 + rawScanAux fuel false (List.drop (L - 1) rest)
      | none =>
        match (if atStart then matchNumDotNumAt (c :: rest) else none) with
        | some L => 1 + rawScanAux fuel false (List.drop (L - 1) rest)
        | none => rawScanAux fuel false rest

/-- Number of matches of the raw-data pattern in the text. -/
def rawDataMatchCount (s : String) : Nat := rawScanAux s.data.length true s.data

/-- Line 282: `has_raw_data = len(re.findall(raw_csv_pattern, text)) > 2`. -/
def hasRawData (t : String) : Bool := rawDataMatchCount t > 2

/-! ## IndexManager._clean_and_format_response (main.py lines 311-381) -/

/-- Core of the regex `Quantity:\s*([^,]+),\s*(\d+)` at the current
position: returns the two capture groups.  `\s*` is greedy but must
leave at least one character for `([^,]+)`, which stops at the first
comma; the digits must follow the comma directly after optional
whitespace, otherwise the match at this position fails. -/
def matchQuantityCore (cs : List Char) : Option (String × String) :=
  if ("Quantity:".data).isPrefixOf cs then
    let rest := cs.drop 9
    let run := rest.takeWhile (fun c => c ≠ ',')
    if run.isEmpty then none
    else
      let sp := (run.takeWhile isPySpace).length
      let keep := if sp = run.length then run.length - 1 else sp
      let name := run.drop keep
      match rest.drop run.length with
      | ',' :: r3 =>
        let r4 := r3.dropWhile isPySpace
        let ds := r4.takeWhile Char.isDigit
        if ds.isEmpty then none else some (String.mk name, String.mk ds)
      | _ => none
  else none

/-- The full pattern `(?:Item Name,\s*)?Quantity:\s*([^,]+),\s*(\d+)`
at the current position (the optional prefix is tried first, as the
greedy `(?:...)?` does). -/
def matchQuantityAt (cs : List Char) : Option (String × String) :=
  if ("Item Name,".data).isPrefixOf cs then
    match matchQuantityCore ((cs.drop 10).dropWhile isPySpace) with
    | some r => some r
    | none => matchQuantityCore cs
  else matchQuantityCore cs

/-- The `re.search` loop for the quantity pattern: leftmost position at
which the pattern matches. -/
def searchQuantityAux : Nat → List Char → Option (String × String)
  | 0, _ => none
  | _, [] => none
  | fuel+1, c :: rest =>
    match matchQuantityAt (c :: rest) with
    | some r => some r
    | none => searchQuantityAux fuel rest

/-- `re.search(r"(?:Item Name,\s*)?Quantity:\s*([^,]+),\s*(\d+)", line)`. -/
def searchQuantity (line : String) : Option (String × String) :=
  searchQuantityAux (line.data.length + 1) line.data

/-- The item-collection loop of lines 318-332. -/
def collectItems (lines : List String) : List (String × String) :=
  lines.foldl
    (fun acc line =>
      match searchQuantity line with
      | some r => acc ++ [(pyStrip r.1, pyStrip r.2)]
      | none =>
        if containsSub line "," && line.data.any Char.isDigit then
          let parts := (pySplit line ",").map pyStrip
          match parts.getLast? with
          | some lastPart =>
            if parts.length ≥ 2 && pyIsDigit lastPart then
              acc ++ [(parts.headD "", lastPart)]
            else acc
          | none => acc
        else acc)
    []

/-- Line 339: `re.sub(r"^(Plain|Prwan|Plains)\s*", "", name).strip()`.
The alternative `Plains` is unreachable because `Plain` is tried
first and matches whenever `Plains` would. -/
def stripLeadingPlain (name : String) : String :=
  let go :=
    if pyStartsWith name "Plain" then String.mk ((name.data.drop 5).dropWhile isPySpace)
    else if pyStartsWith name "Prwan" then String.mk ((name.data.drop 5).dropWhile isPySpace)
    else name
  pyStrip go

/-- Lines 336-344: the structured top-items response. -/
def topItemsResponse (items : List (String × String)) : String :=
  let bullets :=
    (items.take 10).foldl
      (fun acc it => acc ++ "• " ++ stripLeadingPlain it.1 ++ "\n") ""
  pyStrip
    ("Great question! Here are our most popular dishes right now:\n\n" ++ bullets ++
     "\nThese items have been customer favorites with strong demand. " ++
     "Would you like a recommendation based on spice level or cuisine type?")

/-- The dish words of the findall pattern on line 352. -/
def dishWords : List String :=
  ["Curry", "Biryani", "Naan", "Bhajee", "Chaat", "Masala", "Tikka"]

/-- Match `\b([A-Z][a-z]+ (?:Curry|Biryani|Naan|Bhajee|Chaat|Masala|Tikka)[a-zA-Z]*)\b`
at the current position; `prevIsWord` says whether the previous
character is a word character (for the leading `\b`). -/
def matchDishAt (prevIsWord : Bool) (cs : List Char) : Option (String × Nat) :=
  if prevIsWord then none
  else
    match cs with
    | [] => none
    | c :: rest =>
      if c.isUpper then
        let lows := rest.takeWhile Char.isLower
        if lows.isEmpty then none
        else
          match rest.drop lows.length with
          | ' ' :: r2 =>
            match dishWords.find? (fun w => (w.data).isPrefixOf r2) with
            | some w =>
              let r3 := r2.drop w.data.length
              let tl := r3.takeWhile Char.isAlpha
              let ok :=
                match r3.drop tl.length with
                | [] => true
                | d :: _ => !(isWordChar d)
              if ok then
                some (String.mk (c :: lows ++ ' ' :: w.data ++ tl),
                      1 + lows.length + 1 + w.data.length + tl.length)
              else none
            | none => none
          | _ => none
      else none

/-- The `re.findall` loop for the dish pattern. -/
def findDishesAux : Nat → Bool → List Char → List String
  | 0, _, _ => []
  | _, _, [] => []
  | fuel+1, prevIsWord, c :: rest =>
    match matchDishAt prevIsWord (c :: rest) with
    | some r => r.1 :: findDishesAux fuel true (List.drop (r.2 - 1) rest)
    | none => findDishesAux fuel (isWordChar c) rest

/-- `re.findall` for the dish pattern over the whole text. -/
def findDishes (t : String) : List String := findDishesAux t.data.length false t.data

/-- Lines 349-363: the recommendation response. -/
def recommendResponse (text : String) : String :=
  let dishes := (dedupFirst (findDishes text)).take 5
  if dishes.isEmpty then
    pyStrip
      ("Based on recent trends, our guests are loving our curry and biryani selections. " ++
       "Which cuisine or spice level appeals to you?")
  else
    pyStrip
      ("Perfect! Based on what\x27s trending right now:\n\n" ++
       dishes.foldl (fun acc d => acc ++ "• " ++ d ++ " is getting great feedback\n") "" ++
       "\nThese are currently among our guests\x27 favorites. " ++
       "Which cuisine or spice level appeals to you?")

/-- Match `Item Name,\s*Quantity:\s*` at the current position (line 366). -/
def matchItemNameQuantityAt (cs : List Char) : Option Nat :=
  if ("Item Name,".data).isPrefixOf cs then
    let r1 := cs.drop 10
    let sp1 := (r1.takeWhile isPySpace).length
    if ("Quantity:".data).isPrefixOf (r1.drop sp1) then
      let sp2 := ((r1.drop (sp1 + 9)).takeWhile isPySpace).length
      some (10 + sp1 + 9 + sp2)
    else none
  else none

/-- Match `Title:\s*\w+\s*` at the current position (line 367). -/
def matchTitleFieldAt (cs : List Char) : Option Nat :=
  if ("Title:".data).isPrefixOf cs then
    let r1 := cs.drop 6
    let sp1 := (r1.takeWhile isPySpace).length
    let ws := (r1.drop sp1).takeWhile isWordChar
    if ws.isEmpty then none
    else
      let sp2 := ((r1.drop (sp1 + ws.length)).takeWhile isPySpace).length
      some (6 + sp1 + ws.length + sp2)
  else none

/-- Match the literal `[Read as CSV]` (line 368, regex-escaped). -/
def matchReadAsCsvAt (cs : List Char) : Option Nat :=
  if ("[Read as CSV]".data).isPrefixOf cs then some 13 else none

/-- Distance to the nearest following `===` with no newline in between
(for the lazy `.*?` in `===.*?===`). -/
def findCloseEqAux : Nat → Nat → List Char → Option Nat
  | 0, _, _ => none
  | _, _, [] => none
  | fuel+1, acc, c :: rest =>
    if ("===".data).isPrefixOf (c :: rest) then some acc
    else if c = '\n' then none
    else findCloseEqAux fuel (acc + 1) rest

/-- Match `===.*?===` at the current position (line 369; `.` does not
match a newline). -/
def matchEqDelimAt (cs : List Char) : Option Nat :=
  if ("===".data).isPrefixOf cs then
    match findCloseEqAux cs.length 0 (cs.drop 3) with
    | some mid => some (3 + mid + 3)
    | none => none
  else none

/-- Match `\n\n+` at the current position (line 370). -/
def matchMultiNewlineAt : List Char → Option Nat
  | '\n' :: '\n' :: rest => some (2 + (rest.takeWhile (fun c => c = '\n')).length)
  | _ => none

/-- Lines 365-381: cleanup for queries that are neither top-items nor
recommendation queries. -/
def cleanOther (text : String) : String :=
  let t1 := reSub matchItemNameQuantityAt "" text
  let t2 := reSub matchTitleFieldAt "" t1
  let t3 := reSub matchReadAsCsvAt "" t2
  let t4 := reSub matchEqDelimAt "" t3
  let t5 := reSub matchMultiNewlineAt "\n" t4
  let sentences := pySplit t5 ". "
  let t6 :=
    if sentences.length > 3 then String.intercalate ". " (sentences.take 3) ++ "."
    else t5
  let t7 :=
    if startsWithAny (pyLower t6)
        ["great", "perfect", "sure", "absolutely", "yes", "hi", "hello"] then t6
    else "Based on our data: " ++ t6
  pyStrip t7

/-- `IndexManager._clean_and_format_response` (lines 311-381).  Note
that when the top-items condition holds but no items are extracted,
control falls through to the recommendation check and then to the
generic cleanup, exactly as in the source. -/
def cleanAndFormatResponse (text query : String) : String :=
  let ql := pyLower query
  let topBranch :=
    containsSub ql "top" &&
      (containsSub ql "item" || containsSub query "10" || containsSub query "five" ||
       containsSub query "best" || containsSub query "popular")
  let items := if topBranch then collectItems (pySplit text "\n") else []
  if topBranch && !items.isEmpty then topItemsResponse items
  else if ["recommend", "suggest", "best", "popular", "trending"].any
      (fun w => containsSub ql w) then
    recommendResponse text
  else cleanOther text

/-! ## IndexManager._extract_meaningful_response (main.py lines 383-433) -/

/-- `re.match(r"^\s*\d{4}-\d{2}-\d{2}\s*$", line)` as a whole-line test
(the split lines contain no newline). -/
def isDateLine (line : String) : Bool :=
  match line.data.dropWhile isPySpace with
  | a :: b :: c :: d :: '-' :: e :: f :: '-' :: g :: h :: rest =>
    [a, b, c, d, e, f, g, h].all Char.isDigit &&
      (rest.dropWhile isPySpace).isEmpty
  | _ => false

/-- `re.match(r"^\s*[\d.]+\s*$", line)`. -/
def isNumDotLine (line : String) : Bool :=
  let cs := line.data.dropWhile isPySpace
  let run := cs.takeWhile (fun c => c.isDigit || c = '.')
  !run.isEmpty && ((cs.drop run.length).dropWhile isPySpace).isEmpty

/-- `re.match(r"^\s*(Main|Drink|Other)\s*-.*$", line)`. -/
def isCategoryLine (line : String) : Bool :=
  let cs := line.data.dropWhile isPySpace
  let afterWord : Option (List Char) :=
    if ("Main".data).isPrefixOf cs then some (cs.drop 4)
    else if ("Drink".data).isPrefixOf cs then some (cs.drop 5)
    else if ("Other".data).isPrefixOf cs then some (cs.drop 5)
    else none
  match afterWord with
  | some r =>
    match r.dropWhile isPySpace with
    | '-' :: _ => true
    | _ => false
  | none => false

/-- `re.match(r"^\s*\d+\s*$", line)`. -/
def isIdLine (line : String) : Bool :=
  let cs := line.data.dropWhile isPySpace
  let ds := cs.takeWhile Char.isDigit
  !ds.isEmpty && ((cs.drop ds.length).dropWhile isPySpace).isEmpty

/-- Match `^\d+\.\s*` at the string start (line 405). -/
def matchLeadingNumDotAt (cs : List Char) : Option Nat :=
  let ds := cs.takeWhile Char.isDigit
  if ds.isEmpty then none
  else
    match cs.drop ds.length with
    | '.' :: r2 => some (ds.length + 1 + (r2.takeWhile isPySpace).length)
    | _ => none

/-- `re.sub(r"^\d+\.\s*", "", line)`: anchored, so it applies at most
once, at the start. -/
def stripLeadingNumDot (line : String) : String :=
  match matchLeadingNumDotAt line.data with
  | some L => String.mk (line.data.drop L)
  | none => line

/-- Match `\s{2,}` (a maximal whitespace run of length at least 2). -/
def matchMultiSpaceAt (cs : List Char) : Option Nat :=
  let n := (cs.takeWhile isPySpace).length
  if n ≥ 2 then some n else none

/-- `re.sub(r"\s{2,}", " ", line)` (line 406). -/
def collapseSpaces (s : String) : String := reSub matchMultiSpaceAt " " s

/-- The line-filtering loop of lines 388-407. -/
def cleanedLines (text : String) : List String :=
  (pySplit text "\n").foldl
    (fun acc line =>
      if isDateLine line || isNumDotLine line || isCategoryLine line || isIdLine line then
        acc
      else if pyStrip line ≠ "" && pyLen (pyStrip line) > 3 then
        acc ++ [pyStrip (collapseSpaces (stripLeadingNumDot line))]
      else acc)
    []

/-- `IndexManager._extract_meaningful_response` (lines 383-433). -/
def extractMeaningfulResponse (text query : String) : String :=
  let ql := pyLower query
  let cls := cleanedLines text
  if cls.isEmpty then
    if containsSub ql "allerg" || containsSub ql "spic" then
      "I\x27d recommend dishes like Cauliflower Bhajee, Chapati, or mild curries on request. Always tell our staff about your allergy so we can prepare it safely!"
    else if containsSub ql "suggest" || containsSub ql "recommend" then
      "Let me know what cuisine you prefer — I can suggest mild, vegetarian, or other options!"
    else
      "Sorry, I\x27m having trouble retrieving that info. Please ask our staff for details!"
  else
    let t1 := String.intercalate " " cls
    let t2 :=
      if pyLen t1 > 300 || strCount t1 "." > 5 then
        String.intercalate ". " ((pySplit t1 ". ").take 2) ++ "."
      else t1
    let t3 :=
      if !startsWithAny (pyLower t2) ["i\x27d", "great", "perfect", "sure", "here", "based"] then
        if containsSub ql "allerg" || containsSub ql "spic" then
          "For your allergy concern: " ++ t2
        else if containsSub ql "recommend" then
          "Here are some great options: " ++ t2
        else t2
      else t2
    pyStrip t3

/-! ## Post-processing dispatch (main.py lines 279-299)

The four cleanups form an if/elif chain, so at most one of them runs,
selected by the first matching condition.  The verbosity branch calls
`self._compress_verbose_response`, but no such method exists on
`IndexManager`: the block at lines 436-494 that was meant to be its
body sits inside `_extract_meaningful_response` after its `return`
statement, with no `def` line, so it is unreachable dead code and the
attribute lookup raises `AttributeError` (caught by the outer handler
of `query`). -/

/-- Line 287: `text.count("Item Name") > 0 or text.count("Title:") > 0`. -/
def condItemTitle (t : String) : Bool :=
  strCount t "Item Name" > 0 || strCount t "Title:" > 0

/-- Line 290: the verbosity markers. -/
def condVerbose (t : String) : Bool :=
  strCount t "This dish" > 3 || strCount t "which means" > 2 ||
    strCount t "typically consists" > 2

/-- Line 293: `text.count("The item") > 2 or text.count(" • ") > 5`. -/
def condDataDump (t : String) : Bool :=
  strCount t "The item" > 2 || strCount t " • " > 5

/-- Lines 294-297: keep only the first two sentences. -/
def truncTwoSentences (t : String) : String :=
  let sentences := pySplit t ". "
  if sentences.length > 2 then String.intercalate ". " (sentences.take 2) ++ "."
  else t

/-- The AttributeError message Python raises for the missing method. -/
def compressMissingMsg : String :=
  "\x27IndexManager\x27 object has no attribute \x27_compress_verbose_response\x27"

/-- The if/elif dispatch of lines 284-298 over the candidate answer. -/
def postProcess (text q : String) : Except PyExc String :=
  if hasRawData text then .ok (extractMeaningfulResponse text q)
  else if condItemTitle text then .ok (cleanAndFormatResponse text q)
  else if condVerbose text then .error (.otherExc compressMissingMsg)
  else if condDataDump text then .ok (truncTwoSentences text)
  else .ok text

/-! ## IndexManager.query (main.py lines 189-309)

The external effects are passed in as an environment: the result of
`retriever.retrieve(q)` (lines 214-215), the text of the open-domain
fallback call `fallback_llm.complete(...).text` (lines 229-244), and
the grounded text `getattr(resp, "response", None) or str(resp)`
produced by `qe.query(q)` (lines 269-277).  An `Except.error` value
models the corresponding call raising an exception; the whole body runs
inside `try`, and the two `except` clauses convert any exception into a
text answer, so the embedded function is total. -/

structure QueryEnv where
  retrieveResult : Except PyExc (List RetrievedNode)
  fallbackResult : Except PyExc String
  ragResult : Except PyExc String

/-- What a single call to `IndexManager.query` produced: the returned
answer and whether the retrieval step (lines 214-215) and the
generation service (lines 230-243 or 269-276) were invoked. -/
structure Outcome where
  answer : String
  retrievalUsed : Bool
  generationUsed : Bool
deriving DecidableEq

/-- `IndexManager.query`, lines 189-309. -/
def runQuery (env : QueryEnv) (q0 : String) : Outcome :=
  let q := pyStrip q0
  if isGreeting q then ⟨greetingReply, false, false⟩
  else if pyLen q < 3 then ⟨tooShortReply, false, false⟩
  else
    match env.retrieveResult with
    | .error e => ⟨excAnswer e, true, false⟩
    | .ok nodes =>
      if noContext nodes then
        if isOrderRelated q then ⟨noDataMessage, true, false⟩
        else
          match env.fallbackResult with
          | .error e => ⟨excAnswer e, true, true⟩
          | .ok t => ⟨pyStrip t, true, true⟩
      else
        match env.ragResult with
        | .error e => ⟨excAnswer e, true, true⟩
        | .ok t =>
          match postProcess t q with
          | .ok t2 => ⟨t2, true, true⟩
          | .error e => ⟨excAnswer e, true, true⟩

/-! ## Index build and corpus watcher (main.py lines 129-187)

`_build_index` runs, in order: the `Settings` assignments (pure
configuration), `shutil.rmtree(PERSIST_DIR, ignore_errors=True)`,
`collect_documents()`, the chroma client / collection / vector store /
storage context constructions, `VectorStoreIndex.from_documents`
(which embeds the documents and writes the vector data),
`index.storage_context.persist(...)`, `self._index = index`, and
finally `self._last_snapshot = get_files_snapshot()` (a fresh second
directory read).  Each external step is modelled by an `Except` field;
an exception propagates immediately (there is no try/except inside
`_build_index` or `_monitor_files`), leaving the state as mutated so
far. -/

/-- A corpus snapshot: the set of (filename, mtime) pairs built by
`get_files_snapshot` (line 130). -/
abbrev Snapshot := Finset (String × ℕ)

/-- Contents of the on-disk `rag_storage` directory. -/
inductive PersistState where
  | absent
  | halfBuilt
  | complete (gen : ℕ)
deriving DecidableEq

/-- The mutable state shared by the watcher thread and the query path:
`self._index` (the published in-memory generation, identified by a
generation id), `self._last_snapshot`, and the persisted directory. -/
structure SysState where
  publishedIndex : Option ℕ
  lastSnapshot : Option Snapshot
  persistDir : PersistState
deriving DecidableEq

/-- Results of the external steps of one `_build_index` run. -/
structure BuildEnv where
  collectResult : Except PyExc (List String)
  storeResult : Except PyExc Unit
  indexResult : Except PyExc ℕ
  persistResult : Except PyExc Unit
  finalSnapResult : Except PyExc Snapshot

/-- `IndexManager._build_index` (lines 145-175): the final state and
the exception, if one escaped. -/
def buildIndex (env : BuildEnv) (s : SysState) : SysState × Option PyExc :=
  let s1 : SysState := { s with persistDir := .absent }
  match env.collectResult with
  | .error e => (s1, some e)
  | .ok _docs =>
    match env.storeResult with
    | .error e => (s1, some e)
    | .ok _ =>
      let s2 : SysState := { s1 with persistDir := .halfBuilt }
      match env.indexResult with
      | .error e => (s2, some e)
      | .ok gen =>
        match env.persistResult with
        | .error e => (s2, some e)
        | .ok _ =>
          let s3 : SysState :=
            { s2 with persistDir := .complete gen, publishedIndex := some gen }
          match env.finalSnapResult with
          | .error e => (s3, some e)
          | .ok snap => ({ s3 with lastSnapshot := some snap }, none)

/-- One poll tick of `_monitor_files` (lines 181-187): the directory
read and, on change, the rebuild via `_start_indexing`. -/
structure TickEnv where
  snapResult : Except PyExc Snapshot
  buildEnv : BuildEnv

/-- One iteration of the `while True` loop.  There is no try/except in
the loop body, so an exception from `get_files_snapshot` or from the
rebuild escapes unchanged. -/
def monitorTick (t : TickEnv) (s : SysState) : SysState × Option PyExc :=
  match t.snapResult with
  | .error e => (s, some e)
  | .ok snap =>
    if some snap ≠ s.lastSnapshot then buildIndex t.buildEnv s
    else (s, none)

/-- The watcher loop over a sequence of ticks.  The boolean records
whether the loop is still running afterwards: an escaped exception
terminates the daemon thread, and the remaining ticks never happen. -/
def monitorRun : List TickEnv → SysState → SysState × Bool
  | [], s => (s, true)
  | t :: ts, s =>
    match monitorTick t s with
    | (s', none) => monitorRun ts s'
    | (s', some _) => (s', false)

/-! ## Handle reads of the query path (main.py lines 214 and 269)

`IndexManager.query` dereferences `self._index` twice: once to build
the retriever for the gate (line 214) and once to build the query
engine (line 269).  `query` never takes `self._lock`, while the watcher
thread reassigns `self._index` (line 174), so a rebuild can publish a
new generation between the two dereferences.  The environment below
records the value of `self._index` (a generation id) at each of the two
program points, and what retrieval against a given generation returns
for the query at hand. -/

structure ConcEnv where
  handleAtRetrieve : ℕ
  handleAtEngine : ℕ
  retrieveFrom : ℕ → List RetrievedNode

/-- Which generation each phase of the query used: the first component
is the generation behind the gate retrieval, the second is the
generation behind the query engine (`none` when the gate returned
before the engine was constructed). -/
def queryGens (env : ConcEnv) : ℕ × Option ℕ :=
  let nodes := env.retrieveFrom env.handleAtRetrieve
  if noContext nodes then (env.handleAtRetrieve, none)
  else (env.handleAtRetrieve, some env.handleAtEngine)

/-! ## HTTP endpoint (main.py lines 524-557) -/

/-- The three response shapes of `rag_query`: a `QueryResponse`
(status 200) carrying answer, echoed query and timestamp, a 400 with a
detail message, and a 500 with `str(e)`. -/
inductive HttpResponse where
  | ok (answer query timestamp : String)
  | badRequest (detail : String)
  | serverError (detail : String)
deriving DecidableEq

/-- A request as the handler sees it: the content-type header and the
results of `await request.json()` / `await request.form()`, each either
a field map (modelled as an association list of string fields) or an
exception (malformed JSON, or a JSON body that is not an object). -/
structure HttpRequest where
  contentType : String
  jsonResult : Except PyExc (List (String × String))
  formResult : Except PyExc (List (String × String))

/-- Python `body.get(k)` over the field map. -/
def lookupField (kvs : List (String × String)) (k : String) : Option String :=
  (kvs.find? (fun p => p.1 = k)).map (fun p => p.2)

/-- `body.get("query") or body.get("message")`: a missing or empty
(falsy) `query` value falls through to `message`. -/
def pickQueryText (kvs : List (String × String)) : Option String :=
  match lookupField kvs "query" with
  | some v =>
    if v = "" then lookupField kvs "message"
    else some v
  | none => lookupField kvs "message"

/-- The extraction logic of lines 532-547: JSON branch, form branch, or
the JSON fallback whose parse failure is swallowed into `None`. -/
def extractQueryText (req : HttpRequest) : Except PyExc (Option String) :=
  if containsSub req.contentType "application/json" then
    match req.jsonResult with
    | .error e => .error e
    | .ok kvs => .ok (pickQueryText kvs)
  else if containsSub req.contentType "application/x-www-form-urlencoded" ||
      containsSub req.contentType "multipart/form-data" then
    match req.formResult with
    | .error e => .error e
    | .ok kvs => .ok (pickQueryText kvs)
  else
    match req.jsonResult with
    | .error _ => .ok none
    | .ok kvs => .ok (pickQueryText kvs)

/-- The `str(e)` detail of the 500 response. -/
def excDetail : PyExc → String
  | .responseError m => m
  | .otherExc m => m

/-- The `rag_query` handler (lines 524-557).  `utcNow` is the
`datetime.utcnow().isoformat()` string supplied by the clock; the
response timestamp appends `"Z"` to it. -/
def ragQueryEndpoint (env : QueryEnv) (utcNow : String) (req : HttpRequest) : HttpResponse :=
  match extractQueryText req with
  | .error e => .serverError (excDetail e)
  | .ok none => .badRequest "Missing \x27query\x27 or \x27message\x27 field"
  | .ok (some t) =>
    if t = "" then .badRequest "Missing \x27query\x27 or \x27message\x27 field"
    else .ok (runQuery env t).answer t (utcNow ++ "Z")

/-! ## Helper lemmas -/

/-- Whether an Except value is an error. -/
def isErr {α : Type} : Except PyExc α → Bool
  | .error _ => true
  | .ok _ => false

/-- Both error answers carry a non-empty fixed prefix, so they are
never the empty string. -/
theorem excAnswer_ne_empty (e : PyExc) : excAnswer e ≠ "" := by
  cases e with
  | responseError m =>
    intro h
    have h2 := congrArg String.data h
    simp only [excAnswer, String.append] at h2
    cases h2
  | otherExc m =>
    intro h
    have h2 := congrArg String.data h
    simp only [excAnswer, String.append] at h2
    cases h2

/-! ## Claim C7 -/

/-- Claim C7: for every input whose trimmed, lowercased form with all
exclamation and question marks removed is a member of the fixed
greeting set, `IndexManager.query` returns the canned greeting and
stops; whatever the environment (so in particular without any retrieval
call and without any generation call). -/
theorem greeting_short_circuits_pipeline (env : QueryEnv) (q : String)
    (h : greetings.contains (normalizeGreeting (pyStrip q)) = true) :
    runQuery env q = ⟨greetingReply, false, false⟩ := by
  have hg : isGreeting (pyStrip q) = true := by
    unfold isGreeting
    rw [h]
    simp
  simp [runQuery, hg]

/-- Witness for C7 at the input of the spec's own test ("Hello!"). -/
theorem greeting_short_circuits_pipeline_witness :
    greetings.contains (normalizeGreeting (pyStrip "Hello!")) = true ∧
    runQuery ⟨.ok [], .ok "", .ok ""⟩ "Hello!" = ⟨greetingReply, false, false⟩ :=
  ⟨by decide, greeting_short_circuits_pipeline ⟨.ok [], .ok "", .ok ""⟩ "Hello!" (by decide)⟩

/-! ## Claim C2 -/

/-- Claim C2: a query that the classifier tags as domain-relevant
(reaches the keyword step and contains a domain keyword) for which
retrieval returns no chunks, or only chunks scoring below the 0.15
threshold, gets the fixed deterministic no-data message, and the
generation service is never invoked for it. -/
theorem domain_query_no_context_deterministic (env : QueryEnv) (q : String)
    (nodes : List RetrievedNode)
    (hg : isGreeting (pyStrip q) = false)
    (hlen : ¬ pyLen (pyStrip q) < 3)
    (hr : env.retrieveResult = .ok nodes)
    (hnc : noContext nodes = true)
    (hdom : isOrderRelated (pyStrip q) = true) :
    runQuery env q = ⟨noDataMessage, true, false⟩ := by
  simp [runQuery, hg, hlen, hr, hnc, hdom]

/-- Witness for C2 at the spec's own test input ("what's on the menu")
against an empty index. -/
theorem domain_query_no_context_deterministic_witness :
    isOrderRelated (pyStrip "what\x27s on the menu") = true ∧
    noContext [] = true ∧
    runQuery ⟨.ok [], .ok "x", .ok "x"⟩ "what\x27s on the menu" =
      ⟨noDataMessage, true, false⟩ :=
  ⟨by decide, by decide,
   domain_query_no_context_deterministic ⟨.ok [], .ok "x", .ok "x"⟩
     "what\x27s on the menu" [] (by decide) (by decide) rfl (by decide) (by decide)⟩

/-! ## Claim C3 -/

/-- An environment in which the open-domain fallback model call
succeeds but returns an empty text. -/
def envEmptyFallback : QueryEnv := ⟨.ok [], .ok "", .ok ""⟩

/-- Claim C3 counterexample: `query` can return the empty string.  On a
non-domain query against an empty index, the answer is the stripped
fallback model text (line 244, `response.text.strip()`), with no
non-emptiness check; if the model returns an empty or whitespace-only
text, the caller receives the empty answer, contradicting the claim
that the returned answer text is always non-empty (and that a fixed
generic apology is the last resort). -/
theorem query_empty_answer_counterexample :
    (runQuery envEmptyFallback "tell me a joke").answer = "" := by decide

/-- Claim C3 amended: `query` is total (every exception is caught and
converted into a text answer by the two `except` blocks), but the
returned answer is non-empty only on the classifier, no-data and error
paths; an empty answer can occur, and only when it is the direct output
of a generation path: either the stripped fallback text was empty, or
the grounded post-processed text was empty. -/
theorem query_total_empty_only_from_generation (env : QueryEnv) (q : String)
    (h : (runQuery env q).answer = "") :
    (∃ t, env.fallbackResult = .ok t ∧ pyStrip t = "") ∨
    (∃ t, env.ragResult = .ok t ∧ postProcess t (pyStrip q) = .ok "") := by
  rcases env with ⟨rr, fb, rg⟩
  cases hg : isGreeting (pyStrip q) with
  | true =>
    simp [runQuery, hg] at h
    exact absurd h (by decide)
  | false =>
    by_cases hlen : pyLen (pyStrip q) < 3
    · simp [runQuery, hg, hlen] at h
      exact absurd h (by decide)
    · rcases rr with e | nodes
      · simp [runQuery, hg, hlen] at h
        exact absurd h (excAnswer_ne_empty e)
      · cases hnc : noContext nodes with
        | true =>
          cases hdom : isOrderRelated (pyStrip q) with
          | true =>
            simp [runQuery, hg, hlen, hnc, hdom] at h
            exact absurd h (by decide)
          | false =>
            rcases fb with e | t
            · simp [runQuery, hg, hlen, hnc, hdom] at h
              exact absurd h (excAnswer_ne_empty e)
            · simp [runQuery, hg, hlen, hnc, hdom] at h
              exact Or.inl ⟨t, rfl, h⟩
        | false =>
          rcases rg with e | t
          · simp [runQuery, hg, hlen, hnc] at h
            exact absurd h (excAnswer_ne_empty e)
          · rcases hpp : postProcess t (pyStrip q) with e | t2
            · simp [runQuery, hg, hlen, hnc, hpp] at h
              exact absurd h (excAnswer_ne_empty e)
            · simp [runQuery, hg, hlen, hnc, hpp] at h
              exact Or.inr ⟨t, rfl, by rw [hpp, h]⟩

/-- A second empty-fallback environment, for the witness. -/
def envEmptyFallbackW : QueryEnv := ⟨.ok [], .ok " ", .ok "x"⟩

/-- Witness for the amended C3: a concrete run with an empty answer,
traced back to the fallback generation output. -/
theorem query_total_empty_only_from_generation_witness :
    (runQuery envEmptyFallbackW "please sing something").answer = "" ∧
    ((∃ t, envEmptyFallbackW.fallbackResult = .ok t ∧ pyStrip t = "") ∨
     (∃ t, envEmptyFallbackW.ragResult = .ok t ∧
        postProcess t (pyStrip "please sing something") = .ok "")) :=
  ⟨by decide,
   query_total_empty_only_from_generation envEmptyFallbackW "please sing something" (by decide)⟩

/-! ## Claim C4 -/

/-- A candidate answer that matches none of the dispatch conditions:
four sentences, no allowed opener. -/
def plainAnswerC4 : String :=
  "Zebra stew pairs well with rice. It is mild. It is vegetarian. It is filling."

/-- Claim C4 counterexample: the cleanup stages are an if/elif chain,
not an unconditional final pass.  This candidate answer matches no
marker condition, so it passes through unchanged even though it has
more than three sentences (the hard cap of spec stage 5 would truncate
it) and does not begin with an allowed opener (spec stage 6 would
prepend one): stages 3-6 did not run on it. -/
theorem sanitizer_stages_skipped_counterexample :
    postProcess plainAnswerC4 "what pairs with rice" = .ok plainAnswerC4 ∧
    (pySplit plainAnswerC4 ". ").length > 3 ∧
    startsWithAny (pyLower plainAnswerC4)
      ["great", "perfect", "sure", "absolutely", "yes", "hi", "hello"] = false := by
  decide

/-- Claim C4 amended: the cleanup stages form a first-match if/elif
chain over the candidate answer, so at most one of them runs; in
particular a candidate answer matching none of the marker conditions is
returned unchanged, with no field-label cleanup, verbosity compression,
hard caps, or tone normalization applied to it. -/
theorem postprocess_first_match_only (t q : String)
    (h1 : hasRawData t = false) (h2 : condItemTitle t = false)
    (h3 : condVerbose t = false) (h4 : condDataDump t = false) :
    postProcess t q = .ok t := by
  simp [postProcess, h1, h2, h3, h4]

/-- Witness for the amended C4 at a concrete unmarked answer. -/
theorem postprocess_first_match_only_witness :
    hasRawData "A calm meal." = false ∧
    postProcess "A calm meal." "anything" = .ok "A calm meal." :=
  ⟨by decide,
   postprocess_first_match_only "A calm meal." "anything"
     (by decide) (by decide) (by decide) (by decide)⟩

/-! ## Claim C5 -/

/-- A candidate answer whose only firing marker is the verbosity
condition: "This dish" occurs four times (more than 3), and no earlier
branch condition holds. -/
def verboseAnswerC5 : String :=
  "This dish warms. This dish heals. This dish soothes. This dish delights."

/-- The grounded environment for the C5 run: one retrieved node above
threshold, the generation step producing the verbose answer. -/
def envC5 : QueryEnv := ⟨.ok [⟨some (mkRat 1 2)⟩], .ok "x", .ok verboseAnswerC5⟩

/-- Claim C5, settled against the code as written: on a candidate
answer whose verbosity markers exceed their thresholds, line 292 calls
`self._compress_verbose_response(text, q)` - but `IndexManager` has no
such method (its intended body, lines 436-494, is unreachable dead code
sitting after the `return` of `_extract_meaningful_response`, its `def`
line missing), so the call raises `AttributeError` and the outer
handler turns the answer into the unexpected-error text instead of the
compressed text the claim (and the dead code's own docstring)
describes. -/
theorem verbose_branch_raises_attribute_error :
    condVerbose verboseAnswerC5 = true ∧
    runQuery envC5 "describe the dishes" =
      ⟨excAnswer (.otherExc compressMissingMsg), true, true⟩ := by
  decide

/-! ## Claim C6 -/

/-- A grounded candidate answer with no marker condition: four
sentences, 295 characters. -/
def longAnswerC6 : String :=
  "The chef prepares every plate with seasonal produce and a careful balance of spice. Guests often praise the warmth of the dining room and the generosity of the portions. Visitors return for the slow braised specials. Regulars recommend arriving early on busy evenings to secure a corner table."

/-- The grounded environment for the C6 run. -/
def envC6 : QueryEnv := ⟨.ok [⟨some (mkRat 9 10)⟩], .ok "x", .ok longAnswerC6⟩

/-- Claim C6 counterexample: a grounded (retrieval-backed) query whose
generated text matches no marker condition is answered with that text
unchanged - here more than 250 characters and more than three
sentences, so no 2-3-sentence cap and no 250-character budget was
applied to the final answer. -/
theorem grounded_answer_exceeds_caps :
    (runQuery envC6 "how is the food here").answer = longAnswerC6 ∧
    pyLen longAnswerC6 > 250 ∧
    (pySplit longAnswerC6 ". ").length > 3 := by
  decide

/-- Claim C6 amended: final answers of grounded queries are truncated
only inside the specific cleanup branches; when the generated text
matches none of the marker conditions it is returned as the final
answer unchanged, with no sentence cap and no character budget
enforced. -/
theorem grounded_unmarked_answer_passthrough (env : QueryEnv) (q t : String)
    (nodes : List RetrievedNode)
    (hg : isGreeting (pyStrip q) = false)
    (hlen : ¬ pyLen (pyStrip q) < 3)
    (hr : env.retrieveResult = .ok nodes)
    (hnc : noContext nodes = false)
    (ht : env.ragResult = .ok t)
    (h1 : hasRawData t = false) (h2 : condItemTitle t = false)
    (h3 : condVerbose t = false) (h4 : condDataDump t = false) :
    (runQuery env q).answer = t := by
  simp [runQuery, hg, hlen, hr, hnc, ht, postProcess, h1, h2, h3, h4]

/-- The grounded environment for the C6 witness. -/
def envC6W : QueryEnv := ⟨.ok [⟨some (mkRat 1 2)⟩], .ok "x", .ok "Soup is warm."⟩

/-- Witness for the amended C6 at a concrete grounded run. -/
theorem grounded_unmarked_answer_passthrough_witness :
    noContext [(⟨some (mkRat 1 2)⟩ : RetrievedNode)] = false ∧
    (runQuery envC6W "what soup is served today").answer = "Soup is warm." :=
  ⟨by decide,
   grounded_unmarked_answer_passthrough envC6W "what soup is served today"
     "Soup is warm." [⟨some (mkRat 1 2)⟩]
     (by decide) (by decide) rfl (by decide) rfl
     (by decide) (by decide) (by decide) (by decide)⟩

/-! ## Claim C1 -/

/-- A state with generation 0 published and fully persisted. -/
def priorState : SysState := ⟨some 0, some ∅, .complete 0⟩

/-- A build run that raises during document extraction. -/
def failingBuildEnv : BuildEnv :=
  ⟨.error (.otherExc "extraction failed"), .ok (), .ok 1, .ok (), .ok ∅⟩

/-- Claim C1 counterexample: `_build_index` deletes the persisted data
of the prior generation unconditionally (line 165,
`shutil.rmtree(PERSIST_DIR, ignore_errors=True)`) before extraction
even starts, so when the build then fails, the in-memory published
generation is still served but the persisted vector data of the prior
generation is gone - contradicting the claim's "in particular"
clause. -/
theorem build_failure_deletes_prior_persisted_data :
    (buildIndex failingBuildEnv priorState).2 = some (.otherExc "extraction failed") ∧
    (buildIndex failingBuildEnv priorState).1.publishedIndex = some 0 ∧
    priorState.persistDir = .complete 0 ∧
    (buildIndex failingBuildEnv priorState).1.persistDir = .absent := by
  decide

/-- Claim C1 amended: if the build fails during extraction, store
construction, embedding/index construction, or persistence, the
previously published in-memory generation and the stored snapshot are
left untouched and no partial generation is ever recorded as a complete
persisted one - but the persisted vector data of the prior generation
is not available, because the persist directory was removed before the
build began (and, the rebuild being uncaught in the watcher loop, the
failure also propagates instead of being logged). -/
theorem build_failure_preserves_published_not_persisted (env : BuildEnv) (s : SysState)
    (h : isErr env.collectResult = true ∨ isErr env.storeResult = true ∨
         isErr env.indexResult = true ∨ isErr env.persistResult = true) :
    ((buildIndex env s).2).isSome = true ∧
    (buildIndex env s).1.publishedIndex = s.publishedIndex ∧
    (buildIndex env s).1.lastSnapshot = s.lastSnapshot ∧
    ∀ g, (buildIndex env s).1.persistDir ≠ PersistState.complete g := by
  rcases env with ⟨cr, sr, ir, pr, fr⟩
  rcases cr with e | docs
  · simp [buildIndex]
  · rcases sr with e | u
    · simp [buildIndex]
    · rcases ir with e | g0
      · simp [buildIndex]
      · rcases pr with e | u2
        · simp [buildIndex]
        · simp [isErr] at h

/-- A build failing at the embedding/index-construction step, against a
state with generation 7 published. -/
def witnessBuildEnv : BuildEnv :=
  ⟨.ok ["menu data"], .ok (), .error (.otherExc "embedding service down"), .ok (), .ok ∅⟩

/-- The state for the C1 witness. -/
def witnessStateC1 : SysState := ⟨some 7, some ∅, .complete 7⟩

/-- Witness for the amended C1 at a concrete failing build. -/
theorem build_failure_preserves_published_not_persisted_witness :
    isErr witnessBuildEnv.indexResult = true ∧
    ((buildIndex witnessBuildEnv witnessStateC1).2).isSome = true ∧
    (buildIndex witnessBuildEnv witnessStateC1).1.publishedIndex = witnessStateC1.publishedIndex ∧
    (buildIndex witnessBuildEnv witnessStateC1).1.lastSnapshot = witnessStateC1.lastSnapshot ∧
    (buildIndex witnessBuildEnv witnessStateC1).1.persistDir ≠ PersistState.complete 7 :=
  ⟨by decide,
   (build_failure_preserves_published_not_persisted witnessBuildEnv witnessStateC1
     (Or.inr (Or.inr (Or.inl (by decide))))).1,
   (build_failure_preserves_published_not_persisted witnessBuildEnv witnessStateC1
     (Or.inr (Or.inr (Or.inl (by decide))))).2.1,
   (build_failure_preserves_published_not_persisted witnessBuildEnv witnessStateC1
     (Or.inr (Or.inr (Or.inl (by decide))))).2.2.1,
   (build_failure_preserves_published_not_persisted witnessBuildEnv witnessStateC1
     (Or.inr (Or.inr (Or.inl (by decide))))).2.2.2 7⟩

/-! ## Claim C8 -/

/-- A successful build environment for the watcher ticks. -/
def okBuildEnv : BuildEnv :=
  ⟨.ok ["orders data"], .ok (), .ok 1, .ok (), .ok {("orders.csv", 5)}⟩

/-- A tick whose directory read raises (a file disappearing between
listing and stat). -/
def errorTick : TickEnv :=
  ⟨.error (.otherExc "file vanished between listing and stat"), okBuildEnv⟩

/-- A tick that observes a changed snapshot and rebuilds. -/
def changeTick : TickEnv := ⟨.ok {("orders.csv", 5)}, okBuildEnv⟩

/-- The initial watcher state. -/
def initStateC8 : SysState := ⟨some 0, some ∅, .complete 0⟩

/-- Claim C8 counterexample: `_monitor_files` has no try/except, so an
error raised while reading the corpus directory terminates the watcher
loop; the next tick (which would have rebuilt to generation 1) never
runs.  The same tick sequence without the error keeps the loop alive
and rebuilds. -/
theorem watcher_error_terminates_loop :
    (monitorRun [errorTick, changeTick] initStateC8).2 = false ∧
    (monitorRun [errorTick, changeTick] initStateC8).1 = initStateC8 ∧
    (monitorRun [changeTick] initStateC8).2 = true ∧
    (monitorRun [changeTick] initStateC8).1.publishedIndex = some 1 := by
  decide

/-- Claim C8 amended: an error raised while reading the corpus
directory propagates uncaught out of the `while True` body of
`_monitor_files`: the watcher thread terminates, the error is not
logged, the state is left as it was, and no further tick (hence no
retry) ever happens. -/
theorem watcher_error_propagates (e : PyExc) (be : BuildEnv) (ts : List TickEnv) (s : SysState) :
    monitorRun (⟨.error e, be⟩ :: ts) s = (s, false) := by
  simp [monitorRun, monitorTick]

/-! ## Claim C9 -/

/-- A rebuild publishes generation 1 between the two dereferences of
`self._index`: the gate retrieval (line 214) still saw generation 0,
the query engine (line 269) is built over generation 1. -/
def swapEnvC9 : ConcEnv := ⟨0, 1, fun _ => [⟨some (mkRat 1 2)⟩]⟩

/-- Claim C9 counterexample: the query does not take one reference for
the whole request - it reads `self._index` twice, so a rebuild
completing between the reads makes the gate use generation 0 and the
answer generation use generation 1: two different generations inside
one request, and the completed rebuild did change the query's
result. -/
theorem query_uses_two_generations_counterexample :
    queryGens swapEnvC9 = (0, some 1) ∧ (0 : ℕ) ≠ 1 := by decide

/-- Claim C9 amended: the query path dereferences the published index
handle twice - once for the gate retrieval and once to build the query
engine.  Each dereference yields one consistent generation (the handle
value at that instant), and only when no swap happens between the two
reads does the whole request run against a single generation. -/
theorem query_gate_and_engine_generations (env : ConcEnv) :
    (queryGens env).1 = env.handleAtRetrieve ∧
    (∀ g, (queryGens env).2 = some g → g = env.handleAtEngine) ∧
    (env.handleAtRetrieve = env.handleAtEngine →
      ∀ g, (queryGens env).2 = some g → g = (queryGens env).1) := by
  unfold queryGens
  cases hb : noContext (env.retrieveFrom env.handleAtRetrieve) with
  | true =>
    simp [hb]
  | false =>
    simp only [hb]
    refine ⟨rfl, ?_, ?_⟩
    · intro g hg
      simp at hg
      exact hg.symm
    · intro hswap g hg
      simp at hg
      simp only [hswap]
      simpa using hg.symm

/-- An execution with no swap between the two handle reads. -/
def noSwapEnvC9 : ConcEnv := ⟨5, 5, fun _ => [⟨some (mkRat 1 2)⟩]⟩

/-- Witness for the amended C9 at a concrete no-swap execution. -/
theorem query_gate_and_engine_generations_witness :
    (queryGens noSwapEnvC9).1 = noSwapEnvC9.handleAtRetrieve ∧
    (queryGens noSwapEnvC9).2 = some 5 ∧
    (5 : ℕ) = noSwapEnvC9.handleAtEngine ∧
    (5 : ℕ) = (queryGens noSwapEnvC9).1 :=
  ⟨(query_gate_and_engine_generations noSwapEnvC9).1,
   by decide,
   (query_gate_and_engine_generations noSwapEnvC9).2.1 5 (by decide),
   (query_gate_and_engine_generations noSwapEnvC9).2.2 rfl 5 (by decide)⟩

/-! ## Claim C10 -/

/-- Claim C10: the endpoint accepts the query text under either the
key "query" or the key "message", from a JSON body, a form-encoded
body, or a fallback JSON parse of other content types; 400 is returned
only when that extraction yields no non-empty value, and a well-formed
request with a non-empty value always receives the response carrying
the pipeline answer, the echoed query text, and the UTC timestamp. -/
theorem endpoint_field_extraction (env : QueryEnv) (ts : String) (req : HttpRequest) :
    (∀ d, ragQueryEndpoint env ts req = .badRequest d →
      extractQueryText req = .ok none ∨ extractQueryText req = .ok (some "")) ∧
    (∀ t, extractQueryText req = .ok (some t) → t ≠ "" →
      ragQueryEndpoint env ts req = .ok (runQuery env t).answer t (ts ++ "Z")) := by
  constructor
  · intro d hd
    unfold ragQueryEndpoint at hd
    rcases hq : extractQueryText req with e | qt
    · rw [hq] at hd
      simp at hd
    · rcases qt with _ | t
      · exact Or.inl rfl
      · by_cases ht : t = ""
        · subst ht
          exact Or.inr rfl
        · rw [hq] at hd
          simp [ht] at hd
  · intro t hq ht
    unfold ragQueryEndpoint
    rw [hq]
    simp [ht]

/-- A form-encoded request carrying the text under the "message" key
(with an unparseable JSON body). -/
def formReqC10 : HttpRequest :=
  ⟨"application/x-www-form-urlencoded", .error (.otherExc "not json"),
   .ok [("message", "what is the price today")]⟩

/-- The query environment for the C10 witness: domain query against an
empty index, so the answer is the deterministic no-data message. -/
def envC10W : QueryEnv := ⟨.ok [], .ok "x", .ok "x"⟩

/-- Witness for C10 at a concrete form request using the "message"
key. -/
theorem endpoint_field_extraction_witness :
    extractQueryText formReqC10 = .ok (some "what is the price today") ∧
    ragQueryEndpoint envC10W "2024-01-01T00:00:00" formReqC10 =
      .ok noDataMessage "what is the price today" "2024-01-01T00:00:00Z" :=
  ⟨by decide,
   by
     have h := (endpoint_field_extraction envC10W "2024-01-01T00:00:00" formReqC10).2
       "what is the price today" (by decide) (by decide)
     rw [h]
     decide⟩

end RagService
